import Mathlib

/-!
Shallow embedding of the Temporal-based infrastructure-provisioning and
CI/CD sagas (`infra_workflow.py`, `cicd_workflow.py`).

Activities are external collaborators: the orchestration runtime retries a
failed activity per its policy and either hands the workflow the activity's
return value or surfaces a final failure.  We therefore model each
`execute_activity` call site by an `Outcome` drawn from an environment
record: `ok v` means the invocation eventually succeeded with value `v`,
`err msg` means retries were exhausted and the failure surfaced to the
workflow.  Where the mocked activity computes a deterministic value
(`terraform_apply`, `checkout_and_build`, `deploy_artifact`) the embedding
computes the same value; where the workflow branches on an activity's
boolean result (`validate_infra`, `run_tests`) the environment supplies the
boolean, since the workflow logic is written to handle either answer.

Workflow `self._x` fields become an explicit state record; each Python
assignment produces a new state, and a run returns the ordered list of all
states it passed through (what a query could observe), the ordered list of
activity invocations, the final state, and the run's result (`Except`
models the workflow returning versus raising).
-/

/-- Result of one activity invocation as observed by the workflow after the
runtime's retry policy: success with a value, or a surfaced failure. -/
inductive Outcome (α : Type) where
  | ok (a : α)
  | err (msg : String)
deriving DecidableEq, Repr

/-- True when the invocation succeeded. -/
def Outcome.isOk {α : Type} : Outcome α → Bool
  | .ok _ => true
  | .err _ => false

/-- True when an `Except` carries an error (a raised exception). -/
def isErrE {α : Type} : Except String α → Bool
  | .error _ => true
  | .ok _ => false

/- ### Infra saga data model (`infra_workflow.py`) -/

inductive InfraStatus where
  | PENDING | INITIALIZING | PLANNING | PROVISIONING
  | VALIDATING | READY | FAILED | DESTROYING
deriving DecidableEq, Repr

/-- String value of an `InfraStatus`, as the Python `str`-valued enum. -/
def InfraStatus.value : InfraStatus → String
  | .PENDING => "PENDING"
  | .INITIALIZING => "INITIALIZING"
  | .PLANNING => "PLANNING"
  | .PROVISIONING => "PROVISIONING"
  | .VALIDATING => "VALIDATING"
  | .READY => "READY"
  | .FAILED => "FAILED"
  | .DESTROYING => "DESTROYING"

structure InfraInput where
  project_name : String
  region : String := "uksouth"
  environment : String := "dev"
  vm_size : String := "Standard_B2s"
  vnet_address_space : String := "10.0.0.0/16"
  subnet_prefix : String := "10.0.1.0/24"
  admin_username : String := "azureadmin"
deriving DecidableEq, Repr

structure TerraformPlanResult where
  has_changes : Bool
  resources_to_add : Nat
  plan_file : String
deriving DecidableEq, Repr

structure InfraOutput where
  resource_group_name : String
  vnet_name : String
  nsg_name : String
  vm_name : String
  vm_public_ip : String
  vm_private_ip : String
  admin_username : String
deriving DecidableEq, Repr

/-- Value returned by the mocked `terraform_plan` activity on success. -/
def terraform_plan (_input : InfraInput) : TerraformPlanResult :=
  { has_changes := true, resources_to_add := 7, plan_file := "./terraform/tfplan" }

/-- Value returned by the mocked `terraform_apply` activity on success. -/
def terraform_apply (input : InfraInput) (_plan_file : String) : InfraOutput :=
  { resource_group_name := "rg-" ++ input.project_name ++ "-" ++ input.environment
    vnet_name := "vnet-" ++ input.project_name ++ "-" ++ input.environment
    nsg_name := "nsg-" ++ input.project_name ++ "-" ++ input.environment
    vm_name := "vm-" ++ input.project_name ++ "-" ++ input.environment
    vm_public_ip := "20.185.72.14"
    vm_private_ip := "10.0.1.4"
    admin_username := input.admin_username }

/-- The apply result the infra saga stores and delivers, as the composition
of the plan and apply activity values. -/
def infraApplyResult (input : InfraInput) : InfraOutput :=
  terraform_apply input (terraform_plan input).plan_file

/-- Outcome of each activity call site in `InfraProvisioningWorkflow.run`,
in program order. -/
structure InfraEnv where
  initO : Outcome Unit
  planO : Outcome Unit
  applyO : Outcome Unit
  validateO : Outcome Bool
  destroyO : Outcome Unit
deriving DecidableEq, Repr

/-- The mutable fields of `InfraProvisioningWorkflow` (its `self._status`,
`self._output`, `self._applied`). -/
structure InfraState where
  status : InfraStatus
  output : Option InfraOutput
  applied : Bool
deriving DecidableEq, Repr

/-- State established by `InfraProvisioningWorkflow.__init__`. -/
def infraInitState : InfraState :=
  { status := InfraStatus.PENDING, output := none, applied := false }

/-- Activity invocations of the infra saga, for the invocation trace. -/
inductive InfraAct where
  | init | plan | apply | validate | destroy
deriving DecidableEq, Repr

/-- Everything one run of the infra workflow produces: the ordered list of
every state it passed through, the activity-invocation trace, the final
state, and the returned output or raised error. -/
structure InfraRun where
  states : List InfraState
  acts : List InfraAct
  final : InfraState
  result : Except String InfraOutput
deriving Repr

/-- The `except` block of `InfraProvisioningWorkflow.run`: when `_applied`
is set, go to `DESTROYING`, invoke `terraform_destroy` (its own failure is
caught and only logged), then settle in `FAILED`; otherwise go straight to
`FAILED`.  Returns the states traversed, activities invoked and the final
state; the caller re-raises the original error. -/
def infraOnError (env : InfraEnv) (s : InfraState) :
    List InfraState × List InfraAct × InfraState :=
  if s.applied then
    let s1 := { s with status := InfraStatus.DESTROYING }
    let s2 := { s1 with status := InfraStatus.FAILED }
    match env.destroyO with
    | .ok _ => ([s1, s2], [InfraAct.destroy], s2)
    | .err _ => ([s1, s2], [InfraAct.destroy], s2)
  else
    let s1 := { s with status := InfraStatus.FAILED }
    ([s1], [], s1)

/-- Shallow embedding of `InfraProvisioningWorkflow.run`:
init → plan → apply → validate, statuses updated before each step, with the
`except` block (`infraOnError`) compensating on any surfaced failure. -/
def InfraProvisioningWorkflow.run (input : InfraInput) (env : InfraEnv) : InfraRun :=
  let s0 := infraInitState
  let s1 := { s0 with status := InfraStatus.INITIALIZING }
  match env.initO with
  | .err e =>
    let (fs, fa, fin) := infraOnError env s1
    ⟨s0 :: s1 :: fs, InfraAct.init :: fa, fin, .error e⟩
  | .ok _ =>
    let s2 := { s1 with status := InfraStatus.PLANNING }
    match env.planO with
    | .err e =>
      let (fs, fa, fin) := infraOnError env s2
      ⟨s0 :: s1 :: s2 :: fs, [InfraAct.init, InfraAct.plan] ++ fa, fin, .error e⟩
    | .ok _ =>
      let plan := terraform_plan input
      let s3 := { s2 with status := InfraStatus.PROVISIONING }
      match env.applyO with
      | .err e =>
        let (fs, fa, fin) := infraOnError env s3
        ⟨s0 :: s1 :: s2 :: s3 :: fs,
         [InfraAct.init, InfraAct.plan, InfraAct.apply] ++ fa, fin, .error e⟩
      | .ok _ =>
        let out := terraform_apply input plan.plan_file
        let s4 := { s3 with output := some out }
        let s5 := { s4 with applied := true }
        let s6 := { s5 with status := InfraStatus.VALIDATING }
        match env.validateO with
        | .err e =>
          let (fs, fa, fin) := infraOnError env s6
          ⟨s0 :: s1 :: s2 :: s3 :: s4 :: s5 :: s6 :: fs,
           [InfraAct.init, InfraAct.plan, InfraAct.apply, InfraAct.validate] ++ fa,
           fin, .error e⟩
        | .ok healthy =>
          if healthy then
            let s7 := { s6 with status := InfraStatus.READY }
            ⟨[s0, s1, s2, s3, s4, s5, s6, s7],
             [InfraAct.init, InfraAct.plan, InfraAct.apply, InfraAct.validate],
             s7, .ok out⟩
          else
            let (fs, fa, fin) := infraOnError env s6
            ⟨s0 :: s1 :: s2 :: s3 :: s4 :: s5 :: s6 :: fs,
             [InfraAct.init, InfraAct.plan, InfraAct.apply, InfraAct.validate] ++ fa,
             fin, .error (out.vm_name ++ " failed health check")⟩

/-- Shape returned by the `get_infra_output` query: always a status string
and a `ready` flag; the VM fields are present only once `_output` is set. -/
structure InfraDetails where
  status : String
  ready : Bool
  vm_public_ip : Option String := none
  vm_name : Option String := none
  admin_username : Option String := none
  resource_group : Option String := none
deriving DecidableEq, Repr

/-- Shallow embedding of the `get_infra_output` query.  It is a pure
function of the saga state: in the embedding a query cannot mutate. -/
def InfraProvisioningWorkflow.get_infra_output (s : InfraState) : InfraDetails :=
  match s.output with
  | none => { status := s.status.value, ready := false }
  | some o =>
    { status := s.status.value
      ready := decide (s.status = InfraStatus.READY)
      vm_public_ip := some o.vm_public_ip
      vm_name := some o.vm_name
      admin_username := some o.admin_username
      resource_group := some o.resource_group_name }

/-- Shallow embedding of the `get_status` query. -/
def InfraProvisioningWorkflow.get_status (s : InfraState) : String :=
  s.status.value

/- ### CI/CD pipeline saga data model (`cicd_workflow.py`) -/

inductive DeployStatus where
  | PENDING | CHECKING_OUT | BUILDING | TESTING
  | DEPLOYING | COMPLETED | FAILED | ROLLED_BACK
deriving DecidableEq, Repr

/-- String value of a `DeployStatus`, as the Python `str`-valued enum. -/
def DeployStatus.value : DeployStatus → String
  | .PENDING => "PENDING"
  | .CHECKING_OUT => "CHECKING_OUT"
  | .BUILDING => "BUILDING"
  | .TESTING => "TESTING"
  | .DEPLOYING => "DEPLOYING"
  | .COMPLETED => "COMPLETED"
  | .FAILED => "FAILED"
  | .ROLLED_BACK => "ROLLED_BACK"

structure DeployInput where
  repo_url : String
  branch : String := "main"
  commit_sha : Option String := none
  build_command : String := "make build"
  test_command : String := "make test"
  target_host : String := ""
  admin_username : String := "azureadmin"
deriving DecidableEq, Repr

structure BuildResult where
  artifact_name : String
  commit_sha : String
  tests_passed : Nat
  tests_total : Nat
deriving DecidableEq, Repr

structure DeployResult where
  target_host : String
  artifact : String
  application_url : String
  healthy : Bool
deriving DecidableEq, Repr

/-- Value returned by the mocked `checkout_and_build` activity on success:
`freshSha` stands for the `uuid4().hex[:8]` generated when no commit SHA
was supplied. -/
def checkout_and_build (input : DeployInput) (freshSha : String) : BuildResult :=
  let sha := input.commit_sha.getD freshSha
  { artifact_name := "app-" ++ sha ++ ".tar.gz"
    commit_sha := sha
    tests_passed := 0
    tests_total := 0 }

/-- Value returned by the mocked `deploy_artifact` activity on success. -/
def deploy_artifact (build : BuildResult) (target_host admin_username : String) :
    DeployResult :=
  { target_host := target_host
    artifact := build.artifact_name
    application_url := "http://" ++ target_host ++ ":8080"
    healthy := true }

/-- Outcome of each activity call site in one `_pipeline` cycle, in program
order.  `freshSha` models the synthetic SHA generated when the input has no
commit SHA; `notifyDoneO` is the success-path `notify` call and
`notifyFailO` the failure-path one. -/
structure CycleEnv where
  freshSha : String
  buildO : Outcome Unit
  testsO : Outcome Bool
  deployO : Outcome Unit
  notifyDoneO : Outcome Unit
  rollbackO : Outcome Unit
  notifyFailO : Outcome Unit
deriving DecidableEq, Repr

/-- The mutable fields of `CICDPipelineWorkflow` (its `self._status`,
`self._result`, `self._redeploy_requested`, `self._next_input`). -/
structure PipeState where
  status : DeployStatus
  result : Option DeployResult
  redeploy_requested : Bool
  next_input : Option DeployInput
deriving DecidableEq, Repr

/-- State established by `CICDPipelineWorkflow.__init__`. -/
def pipeInitState : PipeState :=
  { status := DeployStatus.PENDING, result := none
    redeploy_requested := false, next_input := none }

/-- Activity invocations of the CI/CD saga, for the invocation trace. -/
inductive CicdAct where
  | build | test | deploy | rollback | notify
deriving DecidableEq, Repr

/-- Everything one `_pipeline` cycle produces: the states traversed after
its entry state (in order), the activity-invocation trace, the final state,
and the returned `DeployResult` or raised error. -/
structure CycleOut where
  states : List PipeState
  acts : List CicdAct
  final : PipeState
  result : Except String DeployResult
deriving Repr

/-- The `except` block of `_pipeline`: mark `FAILED`, attempt `rollback`
(marking `ROLLED_BACK` on success, swallowing its failure), invoke the
failure `notify`, then re-raise the original error `e` — unless the notify
itself fails, in which case its error propagates instead. -/
def CICDPipelineWorkflow.pipelineOnError (env : CycleEnv) (s : PipeState)
    (e : String) : CycleOut :=
  let s1 := { s with status := DeployStatus.FAILED }
  match env.rollbackO with
  | .ok _ =>
    let s2 := { s1 with status := DeployStatus.ROLLED_BACK }
    match env.notifyFailO with
    | .ok _ => ⟨[s1, s2], [CicdAct.rollback, CicdAct.notify], s2, .error e⟩
    | .err e2 => ⟨[s1, s2], [CicdAct.rollback, CicdAct.notify], s2, .error e2⟩
  | .err _ =>
    match env.notifyFailO with
    | .ok _ => ⟨[s1], [CicdAct.rollback, CicdAct.notify], s1, .error e⟩
    | .err e2 => ⟨[s1], [CicdAct.rollback, CicdAct.notify], s1, .error e2⟩

/-- Shallow embedding of `CICDPipelineWorkflow._pipeline`: build → test →
deploy → store result, mark `COMPLETED`, success `notify`; any surfaced
failure (including `run_tests` returning `false`, raised as
"tests failed, not deploying broken code") falls into `pipelineOnError`. -/
def CICDPipelineWorkflow.pipeline (input : DeployInput) (env : CycleEnv)
    (s : PipeState) : CycleOut :=
  let s1 := { s with status := DeployStatus.BUILDING }
  match env.buildO with
  | .err e =>
    let f := CICDPipelineWorkflow.pipelineOnError env s1 e
    ⟨s1 :: f.states, CicdAct.build :: f.acts, f.final, f.result⟩
  | .ok _ =>
    let build := checkout_and_build input env.freshSha
    let s2 := { s1 with status := DeployStatus.TESTING }
    match env.testsO with
    | .err e =>
      let f := CICDPipelineWorkflow.pipelineOnError env s2 e
      ⟨s1 :: s2 :: f.states, [CicdAct.build, CicdAct.test] ++ f.acts, f.final, f.result⟩
    | .ok passed =>
      if passed then
        let s3 := { s2 with status := DeployStatus.DEPLOYING }
        match env.deployO with
        | .err e =>
          let f := CICDPipelineWorkflow.pipelineOnError env s3 e
          ⟨s1 :: s2 :: s3 :: f.states,
           [CicdAct.build, CicdAct.test, CicdAct.deploy] ++ f.acts, f.final, f.result⟩
        | .ok _ =>
          let result := deploy_artifact build input.target_host input.admin_username
          let s4 := { s3 with result := some result }
          let s5 := { s4 with status := DeployStatus.COMPLETED }
          match env.notifyDoneO with
          | .ok _ =>
            ⟨[s1, s2, s3, s4, s5],
             [CicdAct.build, CicdAct.test, CicdAct.deploy, CicdAct.notify],
             s5, .ok result⟩
          | .err e =>
            let f := CICDPipelineWorkflow.pipelineOnError env s5 e
            ⟨[s1, s2, s3, s4, s5] ++ f.states,
             [CicdAct.build, CicdAct.test, CicdAct.deploy, CicdAct.notify] ++ f.acts,
             f.final, f.result⟩
      else
        let f := CICDPipelineWorkflow.pipelineOnError env s2
          "tests failed, not deploying broken code"
        ⟨s1 :: s2 :: f.states, [CicdAct.build, CicdAct.test] ++ f.acts, f.final, f.result⟩

/-- Shallow embedding of the `trigger_redeploy` signal handler: capture the
signaled input and set the pending flag. -/
def CICDPipelineWorkflow.trigger_redeploy (s : PipeState) (input : DeployInput) :
    PipeState :=
  { s with next_input := some input, redeploy_requested := true }

/-- The defaulting the `run` loop applies to a consumed redeploy input: when
its target host is empty, both the target host and the admin account are
copied from the original run input; otherwise it is used as-is. -/
def resolveRedeploy (orig sig : DeployInput) : DeployInput :=
  if sig.target_host = "" then
    { sig with target_host := orig.target_host
               admin_username := orig.admin_username }
  else
    sig

/-- External happenings the waiting `run` loop reacts to: delivery of a
`trigger_redeploy` signal, or the workflow task waking to re-check
`wait_condition` (which resumes the loop only when the pending flag is
set). -/
inductive PipeEvent where
  | signal (input : DeployInput)
  | wake (env : CycleEnv)

/-- Outcome of driving the waiting loop (or the whole run): all states
traversed, the activity trace, the final state, and `ok ()` when the
workflow is still alive and parked versus `error e` when it died raising
`e`. -/
structure LoopOut where
  states : List PipeState
  acts : List CicdAct
  final : PipeState
  outcome : Except String Unit
deriving Repr

/-- Shallow embedding of the `while True` redeploy loop of
`CICDPipelineWorkflow.run`, driven by a list of events.  A `wake` with the
pending flag clear leaves the parked loop untouched; with it set, the loop
clears the flag, consumes `_next_input` (defaulting via `resolveRedeploy`),
and runs one `pipeline` cycle — a cycle error propagates out of `run`,
killing the workflow and dropping all later events. -/
def CICDPipelineWorkflow.runLoop (orig : DeployInput) :
    PipeState → List PipeEvent → LoopOut
  | s, [] => ⟨[], [], s, .ok ()⟩
  | s, .signal i :: rest =>
    let s1 := CICDPipelineWorkflow.trigger_redeploy s i
    let r := CICDPipelineWorkflow.runLoop orig s1 rest
    ⟨s1 :: r.states, r.acts, r.final, r.outcome⟩
  | s, .wake env :: rest =>
    if s.redeploy_requested then
      let s1 := { s with redeploy_requested := false }
      match s.next_input with
      | none => ⟨[s1], [], s1, .error "no captured redeploy input"⟩
      | some sig =>
        let red := resolveRedeploy orig sig
        let c := CICDPipelineWorkflow.pipeline red env s1
        match c.result with
        | .ok _ =>
          let r := CICDPipelineWorkflow.runLoop orig c.final rest
          ⟨s1 :: c.states ++ r.states, c.acts ++ r.acts, r.final, r.outcome⟩
        | .error e => ⟨s1 :: c.states, c.acts, c.final, .error e⟩
    else
      CICDPipelineWorkflow.runLoop orig s rest

/-- Shallow embedding of `CICDPipelineWorkflow.run`: fail fast with a
`ValueError` when the input has no target host (before any activity), else
run the first `pipeline` cycle (its error propagates, ending the run) and
then park in the redeploy loop. -/
def CICDPipelineWorkflow.run (input : DeployInput) (env : CycleEnv)
    (events : List PipeEvent) : LoopOut :=
  if input.target_host = "" then
    ⟨[pipeInitState], [],
     pipeInitState, .error "no target_host - has the infra team provisioned the VM yet?"⟩
  else
    let c := CICDPipelineWorkflow.pipeline input env pipeInitState
    match c.result with
    | .error e => ⟨pipeInitState :: c.states, c.acts, c.final, .error e⟩
    | .ok _ =>
      let l := CICDPipelineWorkflow.runLoop input c.final events
      ⟨pipeInitState :: c.states ++ l.states, c.acts ++ l.acts, l.final, l.outcome⟩

/-- Shape returned by the `get_deploy_details` query: always a status
string; the deliverable fields are present only once `_result` is set. -/
structure DeployDetails where
  status : String
  application_url : Option String := none
  artifact : Option String := none
  healthy : Option Bool := none
deriving DecidableEq, Repr

/-- Shallow embedding of the `get_deploy_details` query; a pure function of
the saga state. -/
def CICDPipelineWorkflow.get_deploy_details (s : PipeState) : DeployDetails :=
  match s.result with
  | none => { status := s.status.value }
  | some r =>
    { status := s.status.value
      application_url := some r.application_url
      artifact := some r.artifact
      healthy := some r.healthy }

/-- Shallow embedding of the `get_status` query. -/
def CICDPipelineWorkflow.get_status (s : PipeState) : String :=
  s.status.value

/-- Message carried by a raised error, if any. -/
def errMsg {α : Type} : Except String α → Option String
  | .error e => some e
  | .ok _ => none

/- ### Concrete fixtures, mirroring the repository's tests (`test_all.py`) -/

/-- The infra input of the end-to-end test. -/
def testInfraInput : InfraInput := { project_name := "test", environment := "test" }

/-- Every infra activity invocation succeeds and the VM validates healthy. -/
def infraEnvAllOk : InfraEnv :=
  ⟨Outcome.ok (), Outcome.ok (), Outcome.ok (), Outcome.ok true, Outcome.ok ()⟩

/-- All activity invocations succeed but the health validation reports
unhealthy. -/
def infraEnvUnhealthy : InfraEnv :=
  ⟨Outcome.ok (), Outcome.ok (), Outcome.ok (), Outcome.ok false, Outcome.ok ()⟩

/-- The pipeline input of the end-to-end test. -/
def testDeployInput : DeployInput :=
  { repo_url := "https://github.com/x/y.git", target_host := "1.2.3.4" }

/-- Every pipeline activity invocation succeeds and the tests pass. -/
def cycleEnvAllOk : CycleEnv :=
  ⟨"abc12345", Outcome.ok (), Outcome.ok true, Outcome.ok (), Outcome.ok (),
   Outcome.ok (), Outcome.ok ()⟩

/-- The test step runs correctly and reports failure; everything else
succeeds. -/
def cycleEnvTestsFail : CycleEnv :=
  ⟨"abc12345", Outcome.ok (), Outcome.ok false, Outcome.ok (), Outcome.ok (),
   Outcome.ok (), Outcome.ok ()⟩

/-- Build, tests and deploy succeed but the success notification fails. -/
def cycleEnvNotifyFail : CycleEnv :=
  ⟨"abc12345", Outcome.ok (), Outcome.ok true, Outcome.ok (),
   Outcome.err "teams is down", Outcome.ok (), Outcome.ok ()⟩

/-- A state holding the deliverable of an earlier successful cycle, as left
behind by a completed first deploy. -/
def prevCompletedState : PipeState :=
  { status := DeployStatus.COMPLETED
    result := some { target_host := "1.2.3.4", artifact := "app-aaa.tar.gz",
                     application_url := "http://1.2.3.4:8080", healthy := true }
    redeploy_requested := false, next_input := none }

/- ### Helper lemmas -/

/-- A `_pipeline` cycle's first traversed state is its entry state with the
status moved to `BUILDING`. -/
theorem pipeline_head_building (input : DeployInput) (env : CycleEnv) (s : PipeState) :
    (CICDPipelineWorkflow.pipeline input env s).states.head? =
      some { s with status := DeployStatus.BUILDING } := by
  obtain ⟨sha, b, t, d, nd, rb, nf⟩ := env
  rcases b with _ | e1 <;> rcases t with (_ | _) | e2 <;> rcases d with _ | e3 <;>
    rcases nd with _ | e4 <;> rcases rb with _ | e5 <;> rcases nf with _ | e6 <;>
    simp [CICDPipelineWorkflow.pipeline, CICDPipelineWorkflow.pipelineOnError]

/-- A `_pipeline` cycle only writes `_status` and `_result`; it leaves the
redeploy pending-flag as it found it. -/
theorem pipeline_preserves_redeploy_flag (input : DeployInput) (env : CycleEnv)
    (s : PipeState) :
    (CICDPipelineWorkflow.pipeline input env s).final.redeploy_requested =
      s.redeploy_requested := by
  obtain ⟨sha, b, t, d, nd, rb, nf⟩ := env
  rcases b with _ | e1 <;> rcases t with (_ | _) | e2 <;> rcases d with _ | e3 <;>
    rcases nd with _ | e4 <;> rcases rb with _ | e5 <;> rcases nf with _ | e6 <;>
    simp [CICDPipelineWorkflow.pipeline, CICDPipelineWorkflow.pipelineOnError]

/- ### Claim C1 -/

/-- Claim C1: in every infra saga run, the InfraOutput deliverable is
produced only after a successful apply and a successful health validation
(the run returns an output only when init, plan and apply succeeded and
validation reported healthy, and that output is exactly the apply result),
and once the stored output is set it is never mutated or replaced: every
traversed state holds either no output or that same apply result, and a
state with the output set is never followed by one without it. -/
theorem infra_output_produced_once (input : InfraInput) (env : InfraEnv) :
    (∀ o, (InfraProvisioningWorkflow.run input env).result = Except.ok o →
        env.initO.isOk = true ∧ env.planO.isOk = true ∧ env.applyO.isOk = true ∧
        env.validateO = Outcome.ok true ∧ o = infraApplyResult input) ∧
    (∀ s ∈ (InfraProvisioningWorkflow.run input env).states,
        s.output = none ∨ s.output = some (infraApplyResult input)) ∧
    List.Chain' (fun a b => a.output = some (infraApplyResult input) →
        b.output = some (infraApplyResult input))
      (InfraProvisioningWorkflow.run input env).states := by
  obtain ⟨i, p, a, v, d⟩ := env
  rcases i with _ | ei <;> rcases p with _ | ep <;> rcases a with _ | ea <;>
    rcases v with (_ | _) | ev <;> rcases d with _ | ed <;>
    simp [InfraProvisioningWorkflow.run, infraOnError, infraInitState, Outcome.isOk,
      infraApplyResult, List.forall_mem_cons, List.chain'_cons]

/-- Witness for C1: on the end-to-end test fixture the run returns the
apply result, discharging the success-path hypothesis. -/
theorem infra_output_produced_once_witness :
    ((infraEnvAllOk).initO.isOk = true ∧ (infraEnvAllOk).planO.isOk = true ∧
     (infraEnvAllOk).applyO.isOk = true ∧ (infraEnvAllOk).validateO = Outcome.ok true ∧
     infraApplyResult testInfraInput = infraApplyResult testInfraInput) :=
  (infra_output_produced_once testInfraInput infraEnvAllOk).1
    (infraApplyResult testInfraInput) rfl

/- ### Claim C3 -/

/-- Claim C3: teardown is invoked iff the infra run fails after apply
completed successfully (init, plan and apply all succeeded yet the run
raised); if validation reports unhealthy the saga invokes teardown and ends
`FAILED`, never `READY`; a failure during init or plan ends `FAILED` with
no teardown invocation. -/
theorem infra_teardown_iff (input : InfraInput) (env : InfraEnv) :
    (InfraAct.destroy ∈ (InfraProvisioningWorkflow.run input env).acts ↔
      isErrE (InfraProvisioningWorkflow.run input env).result = true ∧
      env.initO.isOk = true ∧ env.planO.isOk = true ∧ env.applyO.isOk = true) ∧
    (env.initO.isOk = true → env.planO.isOk = true → env.applyO.isOk = true →
      env.validateO = Outcome.ok false →
        (InfraProvisioningWorkflow.run input env).final.status = InfraStatus.FAILED ∧
        (InfraProvisioningWorkflow.run input env).final.status ≠ InfraStatus.READY ∧
        InfraAct.destroy ∈ (InfraProvisioningWorkflow.run input env).acts ∧
        isErrE (InfraProvisioningWorkflow.run input env).result = true) ∧
    (env.initO.isOk = false ∨ env.planO.isOk = false →
        (InfraProvisioningWorkflow.run input env).final.status = InfraStatus.FAILED ∧
        InfraAct.destroy ∉ (InfraProvisioningWorkflow.run input env).acts) := by
  obtain ⟨i, p, a, v, d⟩ := env
  rcases i with _ | ei <;> rcases p with _ | ep <;> rcases a with _ | ea <;>
    rcases v with (_ | _) | ev <;> rcases d with _ | ed <;>
    simp [InfraProvisioningWorkflow.run, infraOnError, infraInitState, Outcome.isOk, isErrE]

/-- Witness for C3: with every activity succeeding but validation reporting
unhealthy, the saga ends `FAILED` having invoked teardown. -/
theorem infra_teardown_iff_witness :
    (InfraProvisioningWorkflow.run testInfraInput infraEnvUnhealthy).final.status =
        InfraStatus.FAILED ∧
    (InfraProvisioningWorkflow.run testInfraInput infraEnvUnhealthy).final.status ≠
        InfraStatus.READY ∧
    InfraAct.destroy ∈ (InfraProvisioningWorkflow.run testInfraInput infraEnvUnhealthy).acts ∧
    isErrE (InfraProvisioningWorkflow.run testInfraInput infraEnvUnhealthy).result = true :=
  (infra_teardown_iff testInfraInput infraEnvUnhealthy).2.1 rfl rfl rfl rfl

/- ### Claim C5 -/

/-- Claim C5: in every state an infra run traverses, the `get_infra_output`
query reports `ready = true` exactly when the status is `READY`, and before
any InfraOutput exists it returns the empty shape carrying only the status
string and `ready = false`.  The query is a pure function of the state, so
it cannot mutate the saga. -/
theorem infra_query_ready_iff (input : InfraInput) (env : InfraEnv) :
    ∀ s ∈ (InfraProvisioningWorkflow.run input env).states,
      ((InfraProvisioningWorkflow.get_infra_output s).ready = true ↔
        s.status = InfraStatus.READY) ∧
      (s.output = none →
        InfraProvisioningWorkflow.get_infra_output s =
          { status := s.status.value, ready := false }) := by
  obtain ⟨i, p, a, v, d⟩ := env
  rcases i with _ | ei <;> rcases p with _ | ep <;> rcases a with _ | ea <;>
    rcases v with (_ | _) | ev <;> rcases d with _ | ed <;>
    simp [InfraProvisioningWorkflow.run, infraOnError, infraInitState,
      InfraProvisioningWorkflow.get_infra_output, InfraStatus.value, List.forall_mem_cons]

/-- Witness for C5: instantiated at the final state of the successful
end-to-end run, whose membership in the state trace is decided
concretely. -/
theorem infra_query_ready_iff_witness :
    ((InfraProvisioningWorkflow.get_infra_output
        (InfraProvisioningWorkflow.run testInfraInput infraEnvAllOk).final).ready = true ↔
      (InfraProvisioningWorkflow.run testInfraInput infraEnvAllOk).final.status =
        InfraStatus.READY) ∧
    ((InfraProvisioningWorkflow.run testInfraInput infraEnvAllOk).final.output = none →
      InfraProvisioningWorkflow.get_infra_output
          (InfraProvisioningWorkflow.run testInfraInput infraEnvAllOk).final =
        { status :=
            ((InfraProvisioningWorkflow.run testInfraInput infraEnvAllOk).final.status).value
          ready := false }) :=
  infra_query_ready_iff testInfraInput infraEnvAllOk
    (InfraProvisioningWorkflow.run testInfraInput infraEnvAllOk).final (by decide)

/- ### Claim C2 (corrected: the recorded status stays PENDING) -/

/-- Counterexample to C2 as stated: on an input with an empty target host
the run invokes no activity and raises the precondition error, but the
saga's recorded status is `PENDING`, not `FAILED` — the `except` handler
that sets `FAILED` lives in `_pipeline`, which is never entered. -/
theorem cicd_precondition_counterexample :
    (CICDPipelineWorkflow.run { repo_url := "https://github.com/x/y.git" }
        cycleEnvAllOk []).acts = [] ∧
    errMsg (CICDPipelineWorkflow.run { repo_url := "https://github.com/x/y.git" }
        cycleEnvAllOk []).outcome =
      some "no target_host - has the infra team provisioned the VM yet?" ∧
    (CICDPipelineWorkflow.run { repo_url := "https://github.com/x/y.git" }
        cycleEnvAllOk []).final.status = DeployStatus.PENDING ∧
    (CICDPipelineWorkflow.run { repo_url := "https://github.com/x/y.git" }
        cycleEnvAllOk []).final.status ≠ DeployStatus.FAILED :=
  ⟨rfl, rfl, rfl, by decide⟩

/-- Claim C2 as amended: for every DeployInput whose target host is empty,
the run fails fast — it invokes no activity, performs no retries, raises
the precondition `ValueError` to its caller, and the saga's only traversed
state is the initial one, whose recorded status remains `PENDING` (the
workflow execution itself ends failed, but the status field is never set to
`FAILED`). -/
theorem cicd_precondition_fail_fast (input : DeployInput) (env : CycleEnv)
    (events : List PipeEvent) (h : input.target_host = "") :
    (CICDPipelineWorkflow.run input env events).acts = [] ∧
    (CICDPipelineWorkflow.run input env events).outcome =
      Except.error "no target_host - has the infra team provisioned the VM yet?" ∧
    (CICDPipelineWorkflow.run input env events).states = [pipeInitState] ∧
    (CICDPipelineWorkflow.run input env events).final.status = DeployStatus.PENDING := by
  simp [CICDPipelineWorkflow.run, h, pipeInitState]

/-- Witness for the amended C2 at a concrete hostless input. -/
theorem cicd_precondition_fail_fast_witness :
    (CICDPipelineWorkflow.run { repo_url := "https://github.com/example/myapp.git" }
        cycleEnvAllOk []).acts = [] ∧
    (CICDPipelineWorkflow.run { repo_url := "https://github.com/example/myapp.git" }
        cycleEnvAllOk []).outcome =
      Except.error "no target_host - has the infra team provisioned the VM yet?" ∧
    (CICDPipelineWorkflow.run { repo_url := "https://github.com/example/myapp.git" }
        cycleEnvAllOk []).states = [pipeInitState] ∧
    (CICDPipelineWorkflow.run { repo_url := "https://github.com/example/myapp.git" }
        cycleEnvAllOk []).final.status = DeployStatus.PENDING :=
  cicd_precondition_fail_fast { repo_url := "https://github.com/example/myapp.git" }
    cycleEnvAllOk [] rfl

/- ### Claim C4 (corrected: the re-raise holds only if the failure
notification itself succeeds) -/

/-- Counterexample to C4 as stated: in a cycle whose test step returned
failure but whose failure-notification activity then failed, the error
raised to the caller is the notification's, not the original test
failure. -/
theorem cicd_test_failure_counterexample :
    (CICDPipelineWorkflow.pipeline testDeployInput
        ⟨"abc12345", Outcome.ok (), Outcome.ok false, Outcome.ok (), Outcome.ok (),
         Outcome.ok (), Outcome.err "teams is down"⟩
        pipeInitState).result = Except.error "teams is down" ∧
    errMsg (CICDPipelineWorkflow.pipeline testDeployInput
        ⟨"abc12345", Outcome.ok (), Outcome.ok false, Outcome.ok (), Outcome.ok (),
         Outcome.ok (), Outcome.err "teams is down"⟩
        pipeInitState).result ≠ some "tests failed, not deploying broken code" :=
  ⟨rfl, by decide⟩

/-- Claim C4 as amended: in every cycle whose test step returns failure,
deploy is never invoked, the cycle ends `ROLLED_BACK` when rollback
succeeds and `FAILED` when rollback itself fails (that failure being
swallowed), and — provided the failure-notification activity succeeds —
the original test failure is re-raised to the caller. -/
theorem cicd_test_failure_handling (input : DeployInput) (env : CycleEnv) (s : PipeState)
    (hb : env.buildO.isOk = true) (ht : env.testsO = Outcome.ok false) :
    CicdAct.deploy ∉ (CICDPipelineWorkflow.pipeline input env s).acts ∧
    (env.rollbackO.isOk = true →
      (CICDPipelineWorkflow.pipeline input env s).final.status = DeployStatus.ROLLED_BACK) ∧
    (env.rollbackO.isOk = false →
      (CICDPipelineWorkflow.pipeline input env s).final.status = DeployStatus.FAILED) ∧
    (env.notifyFailO.isOk = true →
      (CICDPipelineWorkflow.pipeline input env s).result =
        Except.error "tests failed, not deploying broken code") := by
  obtain ⟨sha, b, t, d, nd, rb, nf⟩ := env
  subst ht
  rcases b with _ | e1
  · rcases rb with _ | e2 <;> rcases nf with _ | e3 <;>
      simp [CICDPipelineWorkflow.pipeline, CICDPipelineWorkflow.pipelineOnError, Outcome.isOk]
  · simp [Outcome.isOk] at hb

/-- Witness for the amended C4 on a concrete failing-tests cycle. -/
theorem cicd_test_failure_handling_witness :
    CicdAct.deploy ∉
      (CICDPipelineWorkflow.pipeline testDeployInput cycleEnvTestsFail pipeInitState).acts ∧
    (cycleEnvTestsFail.rollbackO.isOk = true →
      (CICDPipelineWorkflow.pipeline testDeployInput cycleEnvTestsFail
          pipeInitState).final.status = DeployStatus.ROLLED_BACK) ∧
    (cycleEnvTestsFail.rollbackO.isOk = false →
      (CICDPipelineWorkflow.pipeline testDeployInput cycleEnvTestsFail
          pipeInitState).final.status = DeployStatus.FAILED) ∧
    (cycleEnvTestsFail.notifyFailO.isOk = true →
      (CICDPipelineWorkflow.pipeline testDeployInput cycleEnvTestsFail
          pipeInitState).result =
        Except.error "tests failed, not deploying broken code") :=
  cicd_test_failure_handling testDeployInput cycleEnvTestsFail pipeInitState rfl rfl

/- ### Claim C6 -/

/-- Claim C6: in every cycle where build, tests and deploy all succeed but
the success notification fails, the failure propagates like any step
failure: the status trace passes through `COMPLETED` and then `FAILED`,
rollback is attempted, and the cycle's result is an error even though
deploy was invoked and succeeded. -/
theorem cicd_notify_failure_is_cycle_failure (input : DeployInput) (env : CycleEnv)
    (s : PipeState) (hb : env.buildO.isOk = true) (ht : env.testsO = Outcome.ok true)
    (hd : env.deployO.isOk = true) (hn : env.notifyDoneO.isOk = false) :
    CicdAct.deploy ∈ (CICDPipelineWorkflow.pipeline input env s).acts ∧
    (∃ l2, (CICDPipelineWorkflow.pipeline input env s).states.map PipeState.status =
        [DeployStatus.BUILDING, DeployStatus.TESTING, DeployStatus.DEPLOYING,
         DeployStatus.DEPLOYING, DeployStatus.COMPLETED, DeployStatus.FAILED] ++ l2) ∧
    CicdAct.rollback ∈ (CICDPipelineWorkflow.pipeline input env s).acts ∧
    isErrE (CICDPipelineWorkflow.pipeline input env s).result = true := by
  obtain ⟨sha, b, t, d, nd, rb, nf⟩ := env
  subst ht
  rcases b with _ | e1; swap; · simp [Outcome.isOk] at hb
  rcases d with _ | e3; swap; · simp [Outcome.isOk] at hd
  rcases nd with _ | e4; · simp [Outcome.isOk] at hn
  rcases rb with _ | e5 <;> rcases nf with _ | e6
  · exact ⟨by simp [CICDPipelineWorkflow.pipeline, CICDPipelineWorkflow.pipelineOnError],
      ⟨[DeployStatus.ROLLED_BACK],
        by simp [CICDPipelineWorkflow.pipeline, CICDPipelineWorkflow.pipelineOnError]⟩,
      by simp [CICDPipelineWorkflow.pipeline, CICDPipelineWorkflow.pipelineOnError],
      by simp [CICDPipelineWorkflow.pipeline, CICDPipelineWorkflow.pipelineOnError, isErrE]⟩
  · exact ⟨by simp [CICDPipelineWorkflow.pipeline, CICDPipelineWorkflow.pipelineOnError],
      ⟨[DeployStatus.ROLLED_BACK],
        by simp [CICDPipelineWorkflow.pipeline, CICDPipelineWorkflow.pipelineOnError]⟩,
      by simp [CICDPipelineWorkflow.pipeline, CICDPipelineWorkflow.pipelineOnError],
      by simp [CICDPipelineWorkflow.pipeline, CICDPipelineWorkflow.pipelineOnError, isErrE]⟩
  · exact ⟨by simp [CICDPipelineWorkflow.pipeline, CICDPipelineWorkflow.pipelineOnError],
      ⟨[],
        by simp [CICDPipelineWorkflow.pipeline, CICDPipelineWorkflow.pipelineOnError]⟩,
      by simp [CICDPipelineWorkflow.pipeline, CICDPipelineWorkflow.pipelineOnError],
      by simp [CICDPipelineWorkflow.pipeline, CICDPipelineWorkflow.pipelineOnError, isErrE]⟩
  · exact ⟨by simp [CICDPipelineWorkflow.pipeline, CICDPipelineWorkflow.pipelineOnError],
      ⟨[],
        by simp [CICDPipelineWorkflow.pipeline, CICDPipelineWorkflow.pipelineOnError]⟩,
      by simp [CICDPipelineWorkflow.pipeline, CICDPipelineWorkflow.pipelineOnError],
      by simp [CICDPipelineWorkflow.pipeline, CICDPipelineWorkflow.pipelineOnError, isErrE]⟩

/-- Witness for C6 on a concrete cycle whose success notification fails. -/
theorem cicd_notify_failure_witness :
    CicdAct.deploy ∈
      (CICDPipelineWorkflow.pipeline testDeployInput cycleEnvNotifyFail pipeInitState).acts ∧
    CicdAct.rollback ∈
      (CICDPipelineWorkflow.pipeline testDeployInput cycleEnvNotifyFail pipeInitState).acts ∧
    isErrE (CICDPipelineWorkflow.pipeline testDeployInput cycleEnvNotifyFail
        pipeInitState).result = true :=
  ⟨(cicd_notify_failure_is_cycle_failure testDeployInput cycleEnvNotifyFail pipeInitState
      rfl rfl rfl rfl).1,
   (cicd_notify_failure_is_cycle_failure testDeployInput cycleEnvNotifyFail pipeInitState
      rfl rfl rfl rfl).2.2.1,
   (cicd_notify_failure_is_cycle_failure testDeployInput cycleEnvNotifyFail pipeInitState
      rfl rfl rfl rfl).2.2.2⟩

/- ### Claim C7 -/

/-- Claim C7: when a second redeploy signal arrives before the first is
consumed, the second signal's input overwrites the first's — the state
after both signals equals the state had only the second arrived — and the
waiting loop then runs exactly one cycle, on the most recent signal's
(resolved) input: a further wake invokes nothing more, so the earlier
request is silently dropped. -/
theorem cicd_last_signal_wins (orig i1 i2 : DeployInput) (s : PipeState)
    (env env2 : CycleEnv) :
    CICDPipelineWorkflow.trigger_redeploy (CICDPipelineWorkflow.trigger_redeploy s i1) i2 =
      CICDPipelineWorkflow.trigger_redeploy s i2 ∧
    (CICDPipelineWorkflow.runLoop orig
        (CICDPipelineWorkflow.trigger_redeploy (CICDPipelineWorkflow.trigger_redeploy s i1) i2)
        [PipeEvent.wake env, PipeEvent.wake env2]).acts =
      (CICDPipelineWorkflow.pipeline (resolveRedeploy orig i2) env
        { s with next_input := some i2, redeploy_requested := false }).acts := by
  have hflag := pipeline_preserves_redeploy_flag (resolveRedeploy orig i2) env
    { s with next_input := some i2, redeploy_requested := false }
  constructor
  · simp [CICDPipelineWorkflow.trigger_redeploy]
  · simp only [CICDPipelineWorkflow.runLoop, CICDPipelineWorkflow.trigger_redeploy]
    cases hr : (CICDPipelineWorkflow.pipeline (resolveRedeploy orig i2) env
        { s with next_input := some i2, redeploy_requested := false }).result with
    | ok v => simp [hr, CICDPipelineWorkflow.runLoop, hflag]
    | error e => simp [hr]

/- ### Claim C8 (corrected: defaulting is keyed solely on the target host) -/

/-- Counterexample to C8 as stated: a signaled input that supplies a target
host but omits the admin account (so the dataclass default "azureadmin"
stands) keeps that default; it is not re-defaulted from the original run
input's admin account "bob", because the `run` loop copies the original
fields only when the signaled target host is empty. -/
theorem cicd_redeploy_default_counterexample :
    ({ repo_url := "https://github.com/example/myapp.git", target_host := "1.2.3.4"
       admin_username := "bob" } : DeployInput).admin_username = "bob" ∧
    (resolveRedeploy
      { repo_url := "https://github.com/example/myapp.git", target_host := "1.2.3.4",
        admin_username := "bob" }
      { repo_url := "https://github.com/example/myapp.git",
        target_host := "5.6.7.8" }).admin_username = "azureadmin" ∧
    ("azureadmin" : String) ≠ "bob" :=
  ⟨rfl, rfl, by decide⟩

/-- Claim C8 as amended: consuming a redeploy signal clears the
pending-flag (the first traversed state is the waiting state with the flag
cleared) and re-runs one cycle on the same status field, re-entering
`BUILDING`; defaulting of the consumed input is keyed solely on the
signaled target host — when it is empty, both the target host and the
admin account are copied from the original run input, and otherwise the
signaled input is used exactly as captured (an omitted admin account is not
separately defaulted). -/
theorem cicd_redeploy_consume (orig sig : DeployInput) (s : PipeState) (env : CycleEnv)
    (hreq : s.redeploy_requested = true) (hni : s.next_input = some sig) :
    (CICDPipelineWorkflow.runLoop orig s [PipeEvent.wake env]).states.head? =
      some { s with redeploy_requested := false } ∧
    (CICDPipelineWorkflow.runLoop orig s [PipeEvent.wake env]).acts =
      (CICDPipelineWorkflow.pipeline (resolveRedeploy orig sig) env
        { s with redeploy_requested := false }).acts ∧
    (sig.target_host = "" →
      resolveRedeploy orig sig =
        { sig with target_host := orig.target_host
                   admin_username := orig.admin_username }) ∧
    (sig.target_host ≠ "" → resolveRedeploy orig sig = sig) ∧
    ((CICDPipelineWorkflow.runLoop orig s [PipeEvent.wake env]).states.tail.head?).map
        PipeState.status = some DeployStatus.BUILDING := by
  obtain ⟨st, res, rq, ni⟩ := s
  simp only at hreq hni
  subst hreq
  subst hni
  have hhead := pipeline_head_building (resolveRedeploy orig sig) env
    ⟨st, res, false, some sig⟩
  refine ⟨?_, ?_, ?_, ?_, ?_⟩
  · simp only [CICDPipelineWorkflow.runLoop]
    cases hr : (CICDPipelineWorkflow.pipeline (resolveRedeploy orig sig) env
        ⟨st, res, false, some sig⟩).result with
    | ok v => simp [hr]
    | error e => simp [hr]
  · simp only [CICDPipelineWorkflow.runLoop]
    cases hr : (CICDPipelineWorkflow.pipeline (resolveRedeploy orig sig) env
        ⟨st, res, false, some sig⟩).result with
    | ok v => simp [hr, CICDPipelineWorkflow.runLoop]
    | error e => simp [hr]
  · intro h
    simp [resolveRedeploy, h]
  · intro h
    simp [resolveRedeploy, h]
  · simp only [CICDPipelineWorkflow.runLoop]
    cases hr : (CICDPipelineWorkflow.pipeline (resolveRedeploy orig sig) env
        ⟨st, res, false, some sig⟩).result with
    | ok v => simp [hr, hhead]
    | error e => simp [hr, hhead]

/-- Witness for the amended C8: a waiting `COMPLETED` state consumes a
hostless signal; the flag clears, both fields come from the original
input, and the cycle re-enters `BUILDING`. -/
theorem cicd_redeploy_consume_witness :
    (CICDPipelineWorkflow.runLoop testDeployInput
        ⟨DeployStatus.COMPLETED, none, true, some { repo_url := "r2" }⟩
        [PipeEvent.wake cycleEnvAllOk]).states.head? =
      some ⟨DeployStatus.COMPLETED, none, false, some { repo_url := "r2" }⟩ ∧
    resolveRedeploy testDeployInput { repo_url := "r2" } =
      { repo_url := "r2", target_host := "1.2.3.4", admin_username := "azureadmin" } ∧
    ((CICDPipelineWorkflow.runLoop testDeployInput
        ⟨DeployStatus.COMPLETED, none, true, some { repo_url := "r2" }⟩
        [PipeEvent.wake cycleEnvAllOk]).states.tail.head?).map
      PipeState.status = some DeployStatus.BUILDING :=
  ⟨(cicd_redeploy_consume testDeployInput { repo_url := "r2" }
      ⟨DeployStatus.COMPLETED, none, true, some { repo_url := "r2" }⟩
      cycleEnvAllOk rfl rfl).1,
   (cicd_redeploy_consume testDeployInput { repo_url := "r2" }
      ⟨DeployStatus.COMPLETED, none, true, some { repo_url := "r2" }⟩
      cycleEnvAllOk rfl rfl).2.2.1 rfl,
   (cicd_redeploy_consume testDeployInput { repo_url := "r2" }
      ⟨DeployStatus.COMPLETED, none, true, some { repo_url := "r2" }⟩
      cycleEnvAllOk rfl rfl).2.2.2.2⟩

/- ### Claim C9 -/

/-- Claim C9: in every successful pipeline run the stored deliverable,
read through `get_deploy_details`, carries status `COMPLETED`, the
application URL derived from the given target host as
`http://<targetHost>:8080`, the built artifact name, and `healthy = true`;
`get_status` reports `COMPLETED`. -/
theorem cicd_success_details (input : DeployInput) (env : CycleEnv)
    (h0 : input.target_host ≠ "") (hb : env.buildO.isOk = true)
    (ht : env.testsO = Outcome.ok true) (hd : env.deployO.isOk = true)
    (hn : env.notifyDoneO.isOk = true) :
    CICDPipelineWorkflow.get_deploy_details (CICDPipelineWorkflow.run input env []).final =
      { status := "COMPLETED"
        application_url := some ("http://" ++ input.target_host ++ ":8080")
        artifact := some ("app-" ++ input.commit_sha.getD env.freshSha ++ ".tar.gz")
        healthy := some true } ∧
    CICDPipelineWorkflow.get_status (CICDPipelineWorkflow.run input env []).final =
      "COMPLETED" := by
  obtain ⟨sha, b, t, d, nd, rb, nf⟩ := env
  subst ht
  rcases b with _ | e1; swap; · simp [Outcome.isOk] at hb
  rcases d with _ | e3; swap; · simp [Outcome.isOk] at hd
  rcases nd with _ | e4; swap; · simp [Outcome.isOk] at hn
  simp [CICDPipelineWorkflow.run, h0, CICDPipelineWorkflow.pipeline,
    CICDPipelineWorkflow.runLoop, CICDPipelineWorkflow.get_deploy_details,
    CICDPipelineWorkflow.get_status, checkout_and_build, deploy_artifact,
    pipeInitState, DeployStatus.value]

/-- Witness for C9: the concrete scenario with target host "1.2.3.4"
yields `application_url = "http://1.2.3.4:8080"`, `healthy = true` and
status `COMPLETED`. -/
theorem cicd_success_details_witness :
    CICDPipelineWorkflow.get_deploy_details
        (CICDPipelineWorkflow.run testDeployInput cycleEnvAllOk []).final =
      { status := "COMPLETED"
        application_url := some "http://1.2.3.4:8080"
        artifact := some "app-abc12345.tar.gz"
        healthy := some true } ∧
    CICDPipelineWorkflow.get_status
        (CICDPipelineWorkflow.run testDeployInput cycleEnvAllOk []).final = "COMPLETED" :=
  cicd_success_details testDeployInput cycleEnvAllOk (by decide) rfl rfl rfl rfl

/- ### Claim C10 (corrected: a success-notification failure has already
overwritten the stored result) -/

/-- Counterexample to C10 as stated: after a first successful cycle stored
artifact `app-aaa.tar.gz`, a redeploy cycle that deploys successfully but
fails at the success notification is a failed cycle, yet the stored
DeployResult now reports the new artifact `app-bbb.tar.gz` — the failure
did not leave the stored result unchanged. -/
theorem cicd_failed_redeploy_overwrote_result_counterexample :
    (CICDPipelineWorkflow.run testDeployInput
        ⟨"aaa", .ok (), .ok true, .ok (), .ok (), .ok (), .ok ()⟩ []).final.result.map
      DeployResult.artifact = some "app-aaa.tar.gz" ∧
    (CICDPipelineWorkflow.run testDeployInput
        ⟨"aaa", .ok (), .ok true, .ok (), .ok (), .ok (), .ok ()⟩
        [PipeEvent.signal { repo_url := "r2", commit_sha := some "bbb",
                            target_host := "1.2.3.4" },
         PipeEvent.wake ⟨"ccc", .ok (), .ok true, .ok (), .err "teams is down",
                         .ok (), .ok ()⟩]).final.result.map
      DeployResult.artifact = some "app-bbb.tar.gz" ∧
    isErrE (CICDPipelineWorkflow.run testDeployInput
        ⟨"aaa", .ok (), .ok true, .ok (), .ok (), .ok (), .ok ()⟩
        [PipeEvent.signal { repo_url := "r2", commit_sha := some "bbb",
                            target_host := "1.2.3.4" },
         PipeEvent.wake ⟨"ccc", .ok (), .ok true, .ok (), .err "teams is down",
                         .ok (), .ok ()⟩]).outcome = true ∧
    (some "app-bbb.tar.gz" : Option String) ≠ some "app-aaa.tar.gz" :=
  ⟨rfl, rfl, rfl, by decide⟩

/-- Claim C10 as amended: the failure handler never clears or overwrites
the stored DeployResult — every cycle that fails at or before the deploy
step leaves it unchanged, so `get_deploy_details` afterwards still reports
the previous successful cycle's fields alongside the `FAILED` or
`ROLLED_BACK` status; only a cycle failing after a successful deploy (at
the success notification) has already overwritten the stored result with
its own deploy result. -/
theorem cicd_failed_cycle_keeps_result (input : DeployInput) (env : CycleEnv) (s : PipeState)
    (h : env.buildO.isOk = false ∨ env.testsO ≠ Outcome.ok true ∨ env.deployO.isOk = false) :
    (CICDPipelineWorkflow.pipeline input env s).final.result = s.result ∧
    isErrE (CICDPipelineWorkflow.pipeline input env s).result = true ∧
    ((CICDPipelineWorkflow.pipeline input env s).final.status = DeployStatus.FAILED ∨
      (CICDPipelineWorkflow.pipeline input env s).final.status = DeployStatus.ROLLED_BACK) ∧
    CICDPipelineWorkflow.get_deploy_details (CICDPipelineWorkflow.pipeline input env s).final =
      { CICDPipelineWorkflow.get_deploy_details s with
          status := ((CICDPipelineWorkflow.pipeline input env s).final.status).value } := by
  obtain ⟨st, res, rq, ni⟩ := s
  obtain ⟨sha, b, t, d, nd, rb, nf⟩ := env
  rcases res with _ | r <;>
    rcases b with _ | e1 <;> rcases t with (_ | _) | e2 <;> rcases d with _ | e3 <;>
    rcases nd with _ | e4 <;> rcases rb with _ | e5 <;> rcases nf with _ | e6 <;>
    simp_all [CICDPipelineWorkflow.pipeline, CICDPipelineWorkflow.pipelineOnError,
      CICDPipelineWorkflow.get_deploy_details, Outcome.isOk, isErrE, DeployStatus.value]

/-- Witness for the amended C10: a failing-tests redeploy cycle from a
state holding an earlier deliverable leaves that deliverable in place. -/
theorem cicd_failed_cycle_keeps_result_witness :
    (CICDPipelineWorkflow.pipeline testDeployInput cycleEnvTestsFail
        prevCompletedState).final.result = prevCompletedState.result ∧
    isErrE (CICDPipelineWorkflow.pipeline testDeployInput cycleEnvTestsFail
        prevCompletedState).result = true ∧
    ((CICDPipelineWorkflow.pipeline testDeployInput cycleEnvTestsFail
        prevCompletedState).final.status = DeployStatus.FAILED ∨
      (CICDPipelineWorkflow.pipeline testDeployInput cycleEnvTestsFail
          prevCompletedState).final.status = DeployStatus.ROLLED_BACK) ∧
    CICDPipelineWorkflow.get_deploy_details
        (CICDPipelineWorkflow.pipeline testDeployInput cycleEnvTestsFail
          prevCompletedState).final =
      { CICDPipelineWorkflow.get_deploy_details prevCompletedState with
          status := ((CICDPipelineWorkflow.pipeline testDeployInput cycleEnvTestsFail
            prevCompletedState).final.status).value } :=
  cicd_failed_cycle_keeps_result testDeployInput cycleEnvTestsFail prevCompletedState
    (Or.inr (Or.inl (by decide)))
